import Mathlib

/-!
Verification of the grub-bootimage test-execution supervisor.

This file gives a shallow embedding of the two source files of the
repository (`src/config.rs` and `src/main.rs`) and proves the claims of
the specification against it.

The embedding follows the source:
* `TomlValue`, `Config`, `Config.new`, `parse_config`, `applyEntry`,
  `read_config` model `src/config.rs` (file IO is abstracted away:
  `read_config` starts from the parsed TOML value).
* `ChildBehavior` is an oracle for the results of the OS interactions
  performed by `main` (`wait_timeout`, `kill`, `wait`); `supervise`
  and `invoke` model lines 95-125 of `src/main.rs`, producing the
  observable process termination together with the ordered trace of
  syscalls performed on the child.
-/

namespace GrubBootimage

/-- TOML values as produced by the `toml` crate. The payloads of the
float, boolean and datetime variants play no role in `read_config`
(they always hit the error arm of the key match), so only the boolean
payload is kept and the other two are abstract. -/
inductive TomlValue where
  | string (s : String)
  | integer (i : Int)
  | float
  | boolean (b : Bool)
  | datetime
  | array (xs : List TomlValue)
  | table (entries : List (String × TomlValue))
deriving Repr

/-- `toml::Value::get`: index a table by key; any non-table value
yields `None`. Tables are modelled as association lists. -/
def TomlValue.get (v : TomlValue) (key : String) : Option TomlValue :=
  match v with
  | .table entries => entries.lookup key
  | _ => none

/-- `toml::Value::as_table`. -/
def TomlValue.as_table : TomlValue → Option (List (String × TomlValue))
  | .table entries => some entries
  | _ => none

/-- The configuration table `package.metadata.grub-bootimage`
(struct `Config` in `src/config.rs`). `u32` is modelled as a `Nat`
kept below `2^32` by the conversions, `i32` as an `Int` kept in the
`i32` range. -/
structure Config where
  run_args : Option (List String)
  test_args : Option (List String)
  test_success_exit_code : Option Int
  test_timeout : Nat
deriving Repr, DecidableEq

/-- `Config::new` in `src/config.rs`. -/
def Config.new : Config :=
  { run_args := none
    test_args := none
    test_success_exit_code := none
    test_timeout := 300 }

/-- Rust `as u32` on an `i64` value: truncation to 32 bits. -/
def toU32 (i : Int) : Nat := (i % (2 ^ 32 : Int)).toNat

/-- Rust `as i32` on an `i64` value: truncation to 32 bits,
interpreted as a signed two's-complement value. -/
def toI32 (i : Int) : Int :=
  let m := i % (2 ^ 32 : Int)
  if m < 2 ^ 31 then m else m - 2 ^ 32

/-- `parse_config` in `src/config.rs`: every element of the array must
be a TOML string; otherwise the whole call fails. -/
def parse_config : List TomlValue → Except String (List String)
  | [] => .ok []
  | .string s :: rest => (parse_config rest).map (fun xs => s :: xs)
  | _ :: _ => .error "config must be a list of strings"

/-- One iteration of the key/value loop of `read_config` in
`src/config.rs`: the four recognized keys update the configuration,
anything else is an error. -/
def applyEntry (config : Config) (key : String) (value : TomlValue) :
    Except String Config :=
  match key, value with
  | "run-args", .array a =>
      (parse_config a).map (fun xs => { config with run_args := some xs })
  | "test-args", .array a =>
      (parse_config a).map (fun xs => { config with test_args := some xs })
  | "test-timeout", .integer t =>
      .ok { config with test_timeout := toU32 t }
  | "test-success-exit-code", .integer c =>
      .ok { config with test_success_exit_code := some (toI32 c) }
  | _, _ => .error "grub-bootimage: unexpected key"

/-- `read_config` in `src/config.rs`, starting from the parsed TOML
value of Cargo.toml. If the `package.metadata.grub-bootimage` lookup
chain yields nothing, the defaults are returned; a present non-table
value is an error; a table is folded over with `applyEntry` starting
from the defaults. -/
def read_config (content : TomlValue) : Except String Config :=
  match ((content.get "package").bind (fun t => t.get "metadata")).bind
      (fun t => t.get "grub-bootimage") with
  | none => .ok Config.new
  | some metadata =>
    match metadata.as_table with
    | none => .error "grub-bootimage: config invalid"
    | some entries =>
        entries.foldlM (fun c kv => applyEntry c kv.1 kv.2) Config.new

deriving instance DecidableEq for Except

/-- The results of the OS interactions `main` can perform on the
spawned child. `wait_timeout` returns an error, `some status` (the
child exited; `status` is `ExitStatus::code()`, so `none` means killed
by a signal), or `none` (the timeout elapsed). `kill` and `wait`
(the blocking reap used on the timeout path) can each fail with an IO
error, abstracted as `Unit`. -/
structure ChildBehavior where
  waitTimeout : Except Unit (Option (Option Int))
  kill : Except Unit Unit
  reap : Except Unit (Option Int)
deriving Repr, DecidableEq

/-- The distinct error values `main` can return (`anyhow` errors,
identified by their context message). -/
inductive MainError where
  | waitTimeoutFailed
  | killFailed
  | reapFailed
  | testTimedOut
deriving Repr, DecidableEq

/-- The observable termination of the invocation: returning `Ok(())`
(process exit status 0), calling `std::process::exit(code)`,
returning an error (nonzero exit status), or panicking via
`expect`. -/
inductive Termination where
  | ok
  | exitWith (code : Int)
  | err (e : MainError)
  | panicked (msg : String)
deriving Repr, DecidableEq

/-- A syscall performed on the child, recorded in order. -/
inductive Action where
  | spawn
  | waitTimeout
  | kill
  | reap
deriving Repr, DecidableEq

/-- Lines 104-125 of `src/main.rs`, after a successful spawn: in test
mode, wait with timeout, compare the exit code (with `0` substituted
for a missing one) against the expected code (with `0` substituted
when unset), and exit with the child's code on mismatch; on timeout,
kill, reap (both fatal on failure) and fail with the timeout error.
In run mode, nothing is done and `Ok(())` is returned. Returns the
termination together with the trace of syscalls on the child. -/
def supervise (config : Config) (is_test : Bool) (child : ChildBehavior) :
    Termination × List Action :=
  if is_test then
    match child.waitTimeout with
    | .error _ => (.err .waitTimeoutFailed, [.waitTimeout])
    | .ok (some exit_code) =>
      if config.test_success_exit_code.getD 0 ≠ exit_code.getD 0 then
        (.exitWith (exit_code.getD 0), [.waitTimeout])
      else
        (.ok, [.waitTimeout])
    | .ok none =>
      match child.kill with
      | .error _ => (.err .killFailed, [.waitTimeout, .kill])
      | .ok _ =>
        match child.reap with
        | .error _ => (.err .reapFailed, [.waitTimeout, .kill, .reap])
        | .ok _ => (.err .testTimedOut, [.waitTimeout, .kill, .reap])
  else
    (.ok, [])

/-- Lines 95-125 of `src/main.rs`: spawn the emulator (a spawn failure
panics via `expect` with the message below, with no retry), then
supervise. -/
def invoke (spawn_result : Except Unit ChildBehavior) (config : Config)
    (is_test : Bool) : Termination × List Action :=
  match spawn_result with
  | .error _ => (.panicked "QEMU system-x86_64 failed", [.spawn])
  | .ok child =>
    let r := supervise config is_test child
    (r.1, .spawn :: r.2)

/-- A child that exits before the deadline; `c` is `ExitStatus::code()`
(`none` when killed by a signal). -/
def childExit (c : Option Int) : ChildBehavior :=
  { waitTimeout := .ok (some c), kill := .ok (), reap := .ok none }

/-- A child that is still running when the bounded wait elapses, and for
which kill and reap both succeed. -/
def childTimeout : ChildBehavior :=
  { waitTimeout := .ok none, kill := .ok (), reap := .ok none }

/-- A timed-out child whose kill succeeds but whose blocking reap-wait
fails with an IO error. -/
def childTimeoutReapFail : ChildBehavior :=
  { waitTimeout := .ok none, kill := .ok (), reap := .error () }

/-- A child on which every OS interaction would fail. -/
def childNever : ChildBehavior :=
  { waitTimeout := .error (), kill := .error (), reap := .error () }

/-- A valid TOML document in which `package.metadata.grub-bootimage` is
present but holds an integer, not a table. -/
def cargoTomlNonTableMetadata : TomlValue :=
  .table [("package", .table [("metadata",
    .table [("grub-bootimage", .integer 5)])])]

/-- Claim C1: in test mode, a supervised child that exits before the
deadline with a reportable exit code different from the configured
expected exit code makes the invocation terminate the calling process
itself with that code as its own exit status, rather than returning an
error value. -/
theorem C1_mismatch_propagates_exit (config : Config) (child : ChildBehavior)
    (code : Int) (h : child.waitTimeout = .ok (some (some code)))
    (hne : code ≠ config.test_success_exit_code.getD 0) :
    (supervise config true child).1 = .exitWith code := by
  simp [supervise, h, Ne.symm hne]

/-- Witness for C1 at a concrete input: a child exiting with code 42
against the default expected code 0 makes the invocation exit with 42. -/
theorem C1_witness :
    (childExit (some 42)).waitTimeout = .ok (some (some 42)) ∧
    (42 : Int) ≠ Config.new.test_success_exit_code.getD 0 ∧
    (supervise Config.new true (childExit (some 42))).1 = .exitWith 42 :=
  ⟨rfl, by decide,
    C1_mismatch_propagates_exit Config.new (childExit (some 42)) 42 rfl (by decide)⟩

/-- Claim C2: in test mode, when the bounded wait elapses with the child
still running, the invocation always fails with an error (never success),
and when the kill and the subsequent blocking reap both succeed the error
is the test-timeout error, with the kill performed before the reap. -/
theorem C2_timeout_killed_reaped_and_surfaced (config : Config)
    (child : ChildBehavior) (h : child.waitTimeout = .ok none) :
    (∃ e, (supervise config true child).1 = .err e) ∧
    (child.kill = .ok () → (∃ v, child.reap = .ok v) →
      (supervise config true child).1 = .err .testTimedOut ∧
      (supervise config true child).2 = [.waitTimeout, .kill, .reap]) := by
  obtain ⟨wt, k, r⟩ := child
  simp only at h
  subst h
  refine ⟨?_, ?_⟩
  · cases k with
    | error e => exact ⟨.killFailed, rfl⟩
    | ok u =>
      cases r with
      | error e => exact ⟨.reapFailed, rfl⟩
      | ok v => exact ⟨.testTimedOut, rfl⟩
  · rintro hk ⟨v, hr⟩
    subst hk
    subst hr
    exact ⟨rfl, rfl⟩

/-- Witness for C2 at a concrete input: a timed-out child with a
successful kill and reap yields the timeout error after the ordered
kill-then-reap sequence. -/
theorem C2_witness :
    childTimeout.waitTimeout = .ok none ∧
    childTimeout.kill = .ok () ∧ childTimeout.reap = .ok none ∧
    (supervise Config.new true childTimeout).1 = .err .testTimedOut ∧
    (supervise Config.new true childTimeout).2 = [.waitTimeout, .kill, .reap] :=
  ⟨rfl, rfl, rfl,
    ((C2_timeout_killed_reaped_and_surfaced Config.new childTimeout rfl).2
      rfl ⟨none, rfl⟩).1,
    ((C2_timeout_killed_reaped_and_surfaced Config.new childTimeout rfl).2
      rfl ⟨none, rfl⟩).2⟩

/-- Claim C3 as stated is false: on the timeout path, when the kill
succeeds but the blocking reap-wait fails, the invocation fails with the
reap error rather than proceeding to the timeout error — the reap result
is not discarded, a reap failure is fatal. -/
theorem C3_counterexample :
    (supervise Config.new true childTimeoutReapFail).1 = .err .reapFailed ∧
    Termination.err .reapFailed ≠ .err .testTimedOut := by
  decide

/-- Claim C3 amended: on the timeout path the reap-wait is always
attempted after a successful kill, but a reap failure is also fatal to
the invocation, surfaced as its own error; only on reap success is the
reaped status value discarded and the timeout error returned. -/
theorem C3_amended_reap_failure_fatal (config : Config)
    (child : ChildBehavior) (h : child.waitTimeout = .ok none)
    (hk : child.kill = .ok ()) :
    (child.reap = .error () → (supervise config true child).1 = .err .reapFailed) ∧
    (∀ v, child.reap = .ok v → (supervise config true child).1 = .err .testTimedOut) ∧
    (supervise config true child).2 = [.waitTimeout, .kill, .reap] := by
  obtain ⟨wt, k, r⟩ := child
  simp only at h hk
  subst h
  subst hk
  refine ⟨?_, ?_, ?_⟩
  · intro hr
    simp only at hr
    subst hr
    rfl
  · intro v hr
    simp only at hr
    subst hr
    rfl
  · cases r with
    | error e => rfl
    | ok v => rfl

/-- Witness for the amended C3 at a concrete input: a timed-out child
whose reap fails makes the invocation fail with the reap error, after
kill then reap. -/
theorem C3_witness :
    childTimeoutReapFail.waitTimeout = .ok none ∧
    childTimeoutReapFail.kill = .ok () ∧
    childTimeoutReapFail.reap = .error () ∧
    (supervise Config.new true childTimeoutReapFail).1 = .err .reapFailed ∧
    (supervise Config.new true childTimeoutReapFail).2 =
      [.waitTimeout, .kill, .reap] :=
  ⟨rfl, rfl, rfl,
    (C3_amended_reap_failure_fatal Config.new childTimeoutReapFail rfl rfl).1 rfl,
    (C3_amended_reap_failure_fatal Config.new childTimeoutReapFail rfl rfl).2.2⟩

/-- Claim C4 as stated is false: in run mode the invocation returns
success immediately after the spawn, performing no wait at all — shown
on a child for which every wait interaction would fail, yet the
invocation still succeeds with a trace containing no wait action. -/
theorem C4_counterexample :
    (invoke (.ok childNever) Config.new false).1 = .ok ∧
    Action.waitTimeout ∉ (invoke (.ok childNever) Config.new false).2 ∧
    Action.reap ∉ (invoke (.ok childNever) Config.new false).2 := by
  decide

/-- Claim C4 amended: in non-test mode the deadline supervisor and
outcome reporter are bypassed and the invocation returns success
immediately after spawning the child, with no wait of any kind and no
exit-code comparison. -/
theorem C4_run_mode_spawns_and_returns (config : Config)
    (child : ChildBehavior) :
    (invoke (.ok child) config false).1 = .ok ∧
    (invoke (.ok child) config false).2 = [.spawn] :=
  ⟨rfl, rfl⟩

/-- Claim C5: in test mode, a supervised child that exits before the
deadline with exactly the configured expected exit code makes the
invocation succeed (return of unit, hence process exit status 0). -/
theorem C5_match_succeeds (config : Config) (child : ChildBehavior)
    (code : Int) (h : child.waitTimeout = .ok (some (some code)))
    (he : code = config.test_success_exit_code.getD 0) :
    (supervise config true child).1 = .ok := by
  simp [supervise, h, he]

/-- Witness for C5 at a concrete input: a child exiting with code 0
against the default expected code 0 succeeds. -/
theorem C5_witness :
    (childExit (some 0)).waitTimeout = .ok (some (some 0)) ∧
    (0 : Int) = Config.new.test_success_exit_code.getD 0 ∧
    (supervise Config.new true (childExit (some 0))).1 = .ok :=
  ⟨rfl, by decide,
    C5_match_succeeds Config.new (childExit (some 0)) 0 rfl (by decide)⟩

/-- Claim C6: when the child exits naturally but the platform reports no
exit code, the supervisor substitutes 0 and the downstream comparison
against the expected exit code is still applied to that substituted
value, rather than the invocation failing. -/
theorem C6_missing_code_substitutes_zero (config : Config)
    (child : ChildBehavior) (h : child.waitTimeout = .ok (some none)) :
    (supervise config true child).1 =
      if config.test_success_exit_code.getD 0 ≠ 0 then .exitWith 0 else .ok := by
  by_cases hc : config.test_success_exit_code.getD 0 = 0
  · simp [supervise, h, hc]
  · simp [supervise, h, hc]

/-- Witness for C6 at a concrete input: a signal-terminated child under
the default expected code 0 is compared as 0 and the invocation
succeeds. -/
theorem C6_witness :
    (childExit none).waitTimeout = .ok (some none) ∧
    (supervise Config.new true (childExit none)).1 =
      (if Config.new.test_success_exit_code.getD 0 ≠ 0 then
        Termination.exitWith 0 else .ok) :=
  ⟨rfl, C6_missing_code_substitutes_zero Config.new (childExit none) rfl⟩

/-- Claim C7: the constructor defaults are a 300-second test timeout and
an unset expected exit code, and whenever the expected exit code is
unset the reporter compares the child's code against 0. -/
theorem C7_defaults (config : Config) (child : ChildBehavior) (code : Int)
    (hc : config.test_success_exit_code = none)
    (h : child.waitTimeout = .ok (some (some code))) :
    Config.new.test_timeout = 300 ∧
    Config.new.test_success_exit_code = none ∧
    (supervise config true child).1 =
      if code ≠ 0 then .exitWith code else .ok := by
  refine ⟨rfl, rfl, ?_⟩
  rcases eq_or_ne code 0 with h0 | h0
  · simp [supervise, h, hc, h0]
  · simp [supervise, h, hc, h0, Ne.symm h0]

/-- Witness for C7 at a concrete input: with the default configuration,
a child exiting with code 42 is compared against 0 and the invocation
exits with 42. -/
theorem C7_witness :
    Config.new.test_success_exit_code = none ∧
    (childExit (some 42)).waitTimeout = .ok (some (some 42)) ∧
    Config.new.test_timeout = 300 ∧
    (supervise Config.new true (childExit (some 42))).1 =
      (if (42 : Int) ≠ 0 then Termination.exitWith 42 else .ok) :=
  ⟨rfl, rfl,
    (C7_defaults Config.new (childExit (some 42)) 42 rfl rfl).1,
    (C7_defaults Config.new (childExit (some 42)) 42 rfl rfl).2.2⟩

/-- Claim C8: a failure to start the emulator is immediately fatal to
the invocation (the launch panic), and only a single launch attempt is
made, with nothing performed after it — in particular no retry. -/
theorem C8_launch_failure_fatal (config : Config) (is_test : Bool) :
    (invoke (.error ()) config is_test).1 =
      .panicked "QEMU system-x86_64 failed" ∧
    (invoke (.error ()) config is_test).2 = [.spawn] :=
  ⟨rfl, rfl⟩

/-- Claim C9 as stated is false: a valid TOML document in which the
`package.metadata.grub-bootimage` key is present but holds an integer
contains no `package.metadata.grub-bootimage` table, yet `read_config`
fails with a config-invalid error instead of returning the defaults. -/
theorem C9_counterexample :
    read_config cargoTomlNonTableMetadata =
      .error "grub-bootimage: config invalid" ∧
    read_config cargoTomlNonTableMetadata ≠ .ok Config.new := by
  decide

/-- Claim C9 amended: for every parsed TOML document in which the
`package.metadata.grub-bootimage` lookup chain yields nothing (the key
path is absent), `read_config` succeeds and returns the default
configuration: both argument lists unset, expected exit code unset, and
a 300-second timeout. -/
theorem C9_absent_metadata_gives_defaults (v : TomlValue)
    (h : ((v.get "package").bind (fun t => t.get "metadata")).bind
        (fun t => t.get "grub-bootimage") = none) :
    read_config v = .ok Config.new ∧
    Config.new = { run_args := none, test_args := none,
                   test_success_exit_code := none, test_timeout := 300 } := by
  refine ⟨?_, rfl⟩
  unfold read_config
  rw [h]

/-- Witness for the amended C9 at a concrete input: the empty table has
no `package.metadata.grub-bootimage` and yields the defaults. -/
theorem C9_witness :
    ((TomlValue.get (.table []) "package").bind (fun t => t.get "metadata")).bind
        (fun t => t.get "grub-bootimage") = none ∧
    read_config (.table []) = .ok Config.new :=
  ⟨rfl, (C9_absent_metadata_gives_defaults (.table []) rfl).1⟩

/-- Claim C10: when the child exits without a reportable exit code and
the configured expected exit code is nonzero, the comparison uses the
substituted 0, is a mismatch, and the invocation terminates the calling
process with exit status 0 — observed as success at the process
boundary. -/
theorem C10_signal_with_nonzero_expected_exits_zero (config : Config)
    (child : ChildBehavior)
    (hc : config.test_success_exit_code.getD 0 ≠ 0)
    (h : child.waitTimeout = .ok (some none)) :
    (supervise config true child).1 = .exitWith 0 := by
  simp [supervise, h, hc]

/-- Witness for C10 at a concrete input: expected code 33 and a
signal-terminated child give process exit status 0. -/
theorem C10_witness :
    ({ Config.new with test_success_exit_code := some 33 } : Config).test_success_exit_code.getD 0 ≠ 0 ∧
    (childExit none).waitTimeout = .ok (some none) ∧
    (supervise { Config.new with test_success_exit_code := some 33 } true
      (childExit none)).1 = .exitWith 0 :=
  ⟨by decide, rfl,
    C10_signal_with_nonzero_expected_exits_zero
      { Config.new with test_success_exit_code := some 33 }
      (childExit none) (by decide) rfl⟩

end GrubBootimage
